import Mathlib

/-!
Verification development for the BotBroAIPost repository (src/main.py).

The Python source is shallowly embedded: each relevant Python function is
translated into an executable Lean definition over `List Char`-based string
primitives (so that every definition reduces in the kernel), the chat state
machine becomes a step function on an explicit state type, and the external
collaborators (Telegram, Google Drive, YouTube, Gemini) are modelled by
oracle parameters describing the outcome of each call, exactly as the code
branches on those outcomes.
-/

/-! ### String primitives

The Python code uses `str.strip`, `str.lower`, `str.split(":")`,
`str.startswith`, `in` (substring test), `str.replace(' ', '')`, slicing
and `int(...)`.  These are modelled below over `String.data` so that all
of them compute by structural recursion. -/

/-- Models Python `str.strip()` (whitespace on both ends; the ASCII
whitespace fragment, which is what the handled chat inputs contain). -/
def pyStrip (s : String) : String :=
  ⟨((s.data.dropWhile Char.isWhitespace).reverse.dropWhile Char.isWhitespace).reverse⟩

/-- Models Python `str.lower()` (ASCII letters; Arabic text has no case). -/
def pyLower (s : String) : String :=
  ⟨s.data.map Char.toLower⟩

/-- Split a character list at every occurrence of `c`, keeping empty
segments, like Python `str.split(c)` with an explicit separator. -/
def splitChar (c : Char) : List Char → List (List Char)
  | [] => [[]]
  | a :: rest =>
    let r := splitChar c rest
    if a = c then [] :: r
    else
      match r with
      | [] => [[a]]
      | g :: gs => (a :: g) :: gs

/-- Models Python `text.split(":")`. -/
def pySplitColon (s : String) : List String :=
  (splitChar ':' s.data).map (fun l => ⟨l⟩)

/-- The characters after the first `':'`, i.e. Python
`line.split(":", 1)[1]` (`none` when there is no colon, where Python
would raise an `IndexError`). -/
def afterFirstColon : List Char → Option (List Char)
  | [] => none
  | ':' :: rest => some rest
  | _ :: rest => afterFirstColon rest

/-- Boolean list-prefix test (used to model Python `str.startswith`). -/
def listIsPre : List Char → List Char → Bool
  | [], _ => true
  | _ :: _, [] => false
  | a :: as, b :: bs => a == b && listIsPre as bs

/-- Models Python `s.startswith(pat)`. -/
def strStartsWith (s pat : String) : Bool :=
  listIsPre pat.data s.data

/-- Substring occurrence over character lists. -/
def listContainsSub (pat : List Char) : List Char → Bool
  | [] => pat.isEmpty
  | a :: rest => listIsPre pat (a :: rest) || listContainsSub pat rest

/-- Models Python `pat in s` (substring containment). -/
def strContains (s pat : String) : Bool :=
  listContainsSub pat.data s.data

/-- Numeric value of a list of ASCII digits. -/
def digitsVal (l : List Char) : Nat :=
  l.foldl (fun a c => a * 10 + (c.toNat - 48)) 0

/-- Models Python `int(text)` on its ASCII fragment: surrounding
whitespace, an optional single `+`/`-` sign, then one or more ASCII
digits.  (Python additionally accepts digit-group underscores and
non-ASCII decimal digits; no claim depends on those inputs.)
Returns `none` where Python raises `ValueError`. -/
def pyParseInt (s : String) : Option Int :=
  let t := (pyStrip s).data
  let signed : Bool × List Char :=
    match t with
    | '-' :: rest => (true, rest)
    | '+' :: rest => (false, rest)
    | _ => (false, t)
  if signed.2 ≠ [] ∧ signed.2.all Char.isDigit then
    some (if signed.1 then -(digitsVal signed.2 : Int) else (digitsVal signed.2 : Int))
  else none

/-- Models main.py:539-541 (also reused at main.py:414-415): split the text
on `":"`, convert both parts with `int`, and require
`0 <= hh <= 23 and 0 <= mm <= 59` (at main.py:415 the same range check is
performed by the `datetime.time` constructor).  `none` models the raised
exception path. -/
def parse_time_text (s : String) : Option (Nat × Nat) :=
  match pySplitColon s with
  | [a, b] =>
    match pyParseInt a, pyParseInt b with
    | some hh, some mm =>
      if 0 ≤ hh ∧ hh ≤ 23 ∧ 0 ≤ mm ∧ mm ≤ 59 then some (hh.toNat, mm.toNat) else none
    | _, _ => none
  | _ => none

/-- Models the Python format `f"{n:02d}"` for the 0..99 values it is
applied to (main.py:542). -/
def pad2 (n : Nat) : String :=
  if n < 10 then "0" ++ toString n else toString n

/-- The stored time string `f"{hh:02d}:{mm:02d}"` (main.py:542). -/
def fmtTime (hh mm : Nat) : String :=
  pad2 hh ++ ":" ++ pad2 mm

/-! ### OAuth credential extraction (main.py:127-139) -/

/-- main.py:50. -/
def OAUTH_TOKEN_URI_DEFAULT : String := "https://oauth2.googleapis.com/token"

/-- An uploaded credential document, restricted to the two keys the code
reads (`"installed"` and `"web"`); each block is the underlying JSON
object as an association list with string values.  `none` models an
absent key. -/
structure OAuthJson where
  installed : Option (List (String × String))
  web : Option (List (String × String))
  deriving DecidableEq

/-- First value bound to `k` (Python `dict` lookup; keys are unique in a
parsed JSON object). -/
def dictLookup (k : String) (d : List (String × String)) : Option String :=
  (d.find? (fun p => p.1 == k)).map (fun p => p.2)

/-- Python truthiness of `oauth_json.get(key)`: an absent key gives
`None` and an empty object `{}` is falsy. -/
def truthyBlock : Option (List (String × String)) → Option (List (String × String))
  | some [] => none
  | some l => some l
  | none => none

/-- main.py:128-130: `oauth_json.get("installed") or oauth_json.get("web")`,
followed by the `if not block` falsiness test. -/
def pickBlock (j : OAuthJson) : Option (List (String × String)) :=
  match truthyBlock j.installed with
  | some b => some b
  | none => truthyBlock j.web

/-- The three fields returned by `extract_oauth_fields`. -/
structure OAuthFields where
  client_id : String
  client_secret : String
  token_uri : String
  deriving DecidableEq

/-- main.py:127-139.  `Except.error` carries the message of the
`RuntimeError` the Python code raises. -/
def extract_oauth_fields (j : OAuthJson) : Except String OAuthFields :=
  match pickBlock j with
  | none => Except.error "ملف JSON لا يحتوي على 'installed' أو 'web'."
  | some block =>
    match dictLookup "client_id" block with
    | none => Except.error ("ملف JSON ناقص الحقل: " ++ "client_id")
    | some cid =>
      match dictLookup "client_secret" block with
      | none => Except.error ("ملف JSON ناقص الحقل: " ++ "client_secret")
      | some cs =>
        Except.ok ⟨cid, cs, (dictLookup "token_uri" block).getD OAUTH_TOKEN_URI_DEFAULT⟩

/-! ### Hashtags and metadata (main.py:219-306) -/

/-- main.py:219-222. -/
def TRENDING_TAGS : List String :=
  ["Trending", "Viral", "Shorts", "AI", "Creative", "YouTube", "Funny",
   "Tech", "Magic", "Surprise"]

/-- Order-preserving de-duplication (the `seen` loop of main.py:238-244). -/
def dedupeAux (seen : List String) : List String → List String
  | [] => []
  | t :: rest => if t ∈ seen then dedupeAux seen rest else t :: dedupeAux (t :: seen) rest

/-- main.py:225-244. -/
def infer_context_tags (filename : String) : List String :=
  let name := pyLower filename
  let tags :=
    (if ["slime", "glitter", "goo"].any (fun k => strContains name k) then
      ["Slime", "Glitter"] else []) ++
    (if ["cat", "kitten"].any (fun k => strContains name k) then
      ["Kitten", "Cats", "PetLovers"] else []) ++
    (if ["wave", "ocean", "sea", "surf"].any (fun k => strContains name k) then
      ["Ocean", "Wave", "Nature"] else []) ++
    (if ["car", "auto", "vehicle"].any (fun k => strContains name k) then
      ["Car", "Automotive"] else []) ++
    (if ["transform", "morph", "change"].any (fun k => strContains name k) then
      ["Transformation"] else [])
  dedupeAux [] tags

/-- The backfill loop of main.py:251-256: for each remaining tag, stop
once `max_total` is reached, and append the tag unless already present. -/
def backfill (max_total : Nat) : List String → List String → List String
  | [], mixed => mixed
  | r :: rs, mixed =>
    if max_total ≤ mixed.length then mixed
    else if r ∈ mixed then backfill max_total rs mixed
    else backfill max_total rs (mixed ++ [r])

/-- The tag list assembled by `format_hashtags` (main.py:250-256) before
rendering: up to 5 trending then up to 5 contextual tags, backfilled from
the leftovers. -/
def mixedTags (trending contextual : List String) (max_total : Nat) : List String :=
  let mixed := trending.take 5 ++ contextual.take 5
  if mixed.length < max_total then
    backfill max_total (trending.drop 5 ++ contextual.drop 5) mixed
  else mixed

/-- Python `t.replace(' ', '')` prefixed with `'#'` (main.py:257). -/
def renderTag (t : String) : String :=
  "#" ++ (⟨t.data.filter (fun c => !(c == ' '))⟩ : String)

/-- Python `" ".join(...)`. -/
def joinSpace : List String → String
  | [] => ""
  | [x] => x
  | x :: y :: rest => x ++ " " ++ joinSpace (y :: rest)

/-- main.py:247-257. -/
def format_hashtags (trending contextual : List String) (max_total : Nat) : String :=
  joinSpace ((mixedTags trending contextual max_total).map renderTag)

/-! ### Metadata synthesizer (main.py:260-306)

Everything between `try` and `except` that talks to the Gemini service
(API key check, `genai.upload_file`, the 60-iteration readiness poll,
`generate_content`, reading `response.text`) is summarised by a
`GeminiOutcome` oracle: either some step raised an exception, or the
service produced a response text. -/

/-- Outcome of the Gemini interaction in main.py:265-285: `failure` is
any exception at any step (missing `GOOGLE_API_KEY`, upload failure, the
file never reaching `ACTIVE` within 60 polls, transport errors reading
the response); `response txt` is the value of
`(getattr(response, "text", "") or "").strip()` before stripping. -/
inductive GeminiOutcome where
  | failure
  | response (text : String)
  deriving DecidableEq

/-- The title/description pair returned by the synthesizer. -/
structure VideoMeta where
  title : String
  description : String
  deriving DecidableEq

/-- main.py:294. -/
def default_title : String := "AI Magic: Surprising Transformation!"

/-- main.py:296. -/
def default_desc : String :=
  "A stunning AI-powered visual with an unexpected twist that keeps you watching."

/-- The line scan of main.py:286-292: for each line, a `title:`-prefixed
line (case-insensitively) overwrites the title accumulator with the text
after the first colon, stripped; otherwise a `description:` line does the
same for the description.  Lines are split on newline (the fragment of
Python `splitlines` the two-line prompt format produces). -/
def parseTitleDesc (text : String) : Option String × Option String :=
  (splitChar '\n' text.data).foldl
    (fun acc lineChars =>
      let low := pyLower ⟨lineChars⟩
      if strStartsWith low "title:" then
        (some (pyStrip ⟨(afterFirstColon lineChars).getD []⟩), acc.2)
      else if strStartsWith low "description:" then
        (acc.1, some (pyStrip ⟨(afterFirstColon lineChars).getD []⟩))
      else acc)
    (none, none)

/-- Python falsiness `if not title:` — `None` or the empty string. -/
def falsyOptStr : Option String → Bool
  | none => true
  | some s => s.data.isEmpty

/-- Python string slice `s[:70]`. -/
def strTake (s : String) (n : Nat) : String :=
  ⟨s.data.take n⟩

/-- main.py:260-306, `generate_metadata_with_gemini`.  The `video_path`
argument is only ever handed to the Gemini collaborator, whose behaviour
is the `gem` oracle. -/
def generate_metadata_with_gemini (video_path filename_hint : String)
    (gem : GeminiOutcome) : VideoMeta :=
  let contextual := infer_context_tags filename_hint
  let trending := TRENDING_TAGS
  let _ := video_path
  match gem with
  | .failure =>
    { title := default_title
      description := "Fallback description.\n" ++ format_hashtags trending contextual 10 }
  | .response txt =>
    let text := pyStrip txt
    let parsed := parseTitleDesc text
    let title0 := if falsyOptStr parsed.1 then default_title else parsed.1.getD default_title
    let desc := if falsyOptStr parsed.2 then default_desc else parsed.2.getD default_desc
    let title := pyStrip (strTake title0 70)
    { title := title
      description := desc ++ "\n" ++ format_hashtags trending contextual 10 }

/-! ### YouTube upload helper and publish pipeline (main.py:310-392) -/

/-- A file in the configured Drive folder (`files(id,name)` of the
listing); the folder listing is kept in `createdTime` order, so the first
element is the file `list_first_video_in_folder` selects. -/
structure DriveFile where
  id : String
  name : String
  deriving DecidableEq

/-- Outcome of the resumable-upload interaction in main.py:312-335:
a completed upload whose response carries `id` (or not), an `HttpError`
(whose text may contain `"uploadLimitExceeded"` and which may expose a
`status_code`), or any other exception — including the
`RuntimeError("YouTube upload did not complete.")` raised after 200
polling iterations, which the generic `except` turns into its message. -/
inductive UploadResult where
  | success (videoId : Option String)
  | httpError (limitExceeded : Bool) (statusCode : Option Nat)
  | genericError (msg : String)
  deriving DecidableEq

/-- main.py:310-341, `upload_to_youtube`: the watch URL on success with
an id, `None` on success without one, and the sentinel `"ERR:..."`
strings on the three classified failures. -/
def upload_to_youtube : UploadResult → Option String
  | .success (some vid) => some ("https://www.youtube.com/watch?v=" ++ vid)
  | .success none => none
  | .httpError true _ => some "ERR:uploadLimitExceeded"
  | .httpError false code =>
    some ("ERR:HttpError " ++ (match code with | some c => toString c | none => ""))
  | .genericError m => some ("ERR:Generic " ++ m)

/-- Python truthiness of an optional string field (`None` and `""` are
falsy). -/
def truthyStr : Option String → Bool
  | none => false
  | some s => !s.data.isEmpty

/-! ### Per-chat state (main.py:78-99) -/

/-- The value of the string-tagged `cfg["next"]` field.  The strings used
by the code are `"await_json"`, `"await_refresh"`, `"await_folder"`,
`"await_times_count"`, `"await_time_{i}"` (whose numeric suffix is only
ever written, never read back: the branch at main.py:537 tests the
`"await_time_"` prefix) and `"idle"`. -/
inductive Step where
  | await_json
  | await_refresh
  | await_folder
  | await_times_count
  | await_time (i : Nat)
  | idle
  deriving DecidableEq

/-- main.py:537: `cfg.get("next", "").startswith("await_time_")`. -/
def Step.isAwaitTime : Step → Bool
  | .await_time _ => true
  | _ => false

/-- The per-chat dictionary created by `get_chat` (main.py:85-98), with
each field at its stored type. -/
structure ChatConfig where
  next : Step
  oauth_json : Option OAuthJson
  refresh_token : Option String
  drive_folder_id : Option String
  oauth_client_id : Option String
  oauth_client_secret : Option String
  oauth_token_uri : String
  save_info : Bool
  setup_complete : Bool
  autopost_enabled : Bool
  autopost_count : Nat
  autopost_times : List String
  deriving DecidableEq

/-- The defaults of main.py:85-98. -/
def initChat : ChatConfig :=
  { next := .await_json
    oauth_json := none
    refresh_token := none
    drive_folder_id := none
    oauth_client_id := none
    oauth_client_secret := none
    oauth_token_uri := OAUTH_TOKEN_URI_DEFAULT
    save_info := true
    setup_complete := false
    autopost_enabled := false
    autopost_count := 0
    autopost_times := [] }

/-- Python truthiness of `cfg.get("oauth_json")` (a dict is truthy when
non-empty; restricted to the two modelled keys). -/
def oauthJsonTruthy (j : OAuthJson) : Bool :=
  j.installed.isSome || j.web.isSome

/-- The configuration mutation performed inside `build_services`
(main.py:142-157): when `oauth_client_id`/`oauth_client_secret` are not
both set, and a truthy `oauth_json` is stored and extraction succeeds,
the extracted identity is cached back into the config.  When extraction
raises, or later when the
`RuntimeError("بيانات OAuth ناقصة...")` check fires, the caller catches
the exception and the fields written so far (none, resp. all three)
persist. -/
def build_services_mutate (cfg : ChatConfig) : ChatConfig :=
  if truthyStr cfg.oauth_client_id && truthyStr cfg.oauth_client_secret then cfg
  else
    match cfg.oauth_json with
    | none => cfg
    | some j =>
      if oauthJsonTruthy j then
        match extract_oauth_fields j with
        | .ok f =>
          { cfg with
            oauth_client_id := some f.client_id
            oauth_client_secret := some f.client_secret
            oauth_token_uri := f.token_uri }
        | .error _ => cfg
      else cfg

/-- main.py:159: after the caching step, `build_services` raises unless
client id, client secret and refresh token are all truthy. -/
def credsOk (cfg : ChatConfig) : Bool :=
  truthyStr cfg.oauth_client_id && truthyStr cfg.oauth_client_secret &&
    truthyStr cfg.refresh_token

/-- The configuration change a `publish_now` invocation can make
(main.py:345-353): nothing when the folder id is unset, otherwise the
`build_services` caching; every later step only talks to collaborators. -/
def publish_mutate (cfg : ChatConfig) : ChatConfig :=
  if truthyStr cfg.drive_folder_id then build_services_mutate cfg else cfg

/-! ### Publish pipeline (main.py:345-392)

The Drive folder content is passed in as the `createdTime`-ordered
listing; the upload and Gemini collaborators are the two oracles.
Downloading (main.py:361) is modelled as succeeding — its failure path
goes to the generic `except` handler without reaching the upload or the
deletion, which no claim exercises — and the best-effort
`delete_drive_file` (main.py:211-215) as removing the file. -/

/-- Observable outcome of one `publish_now` invocation: the texts sent to
the chat in order, the Drive `delete` calls issued, the folder content
afterwards and the (possibly oauth-cached) configuration. -/
structure PublishOut where
  messages : List String
  deleteCalls : List String
  finalFiles : List DriveFile
  cfg : ChatConfig
  deriving DecidableEq

/-- main.py:345-392, `publish_now`. -/
def publish_now (cfg0 : ChatConfig) (files : List DriveFile)
    (up : UploadResult) (gem : GeminiOutcome) : PublishOut :=
  if !truthyStr cfg0.drive_folder_id then
    { messages := ["❌ لم يتم ضبط معرف مجلد درايف بعد."]
      deleteCalls := [], finalFiles := files, cfg := cfg0 }
  else
    let cfg := build_services_mutate cfg0
    if !credsOk cfg then
      { messages :=
          ["❌ حدث خطأ أثناء النشر: بيانات OAuth ناقصة. أرسل JSON ثم REFRESH_TOKEN ثم DRIVE_FOLDER_ID."]
        deleteCalls := [], finalFiles := files, cfg := cfg }
    else
      match files with
      | [] =>
        { messages := ["❌ لا يوجد فيديوهات في هذا المجلد."]
          deleteCalls := [], finalFiles := files, cfg := cfg }
      | file :: _ =>
        let m1 := "🔍 جاري التحليل وتوليد البيانات للفيديو: " ++ file.name
        let meta := generate_metadata_with_gemini "video" file.name gem
        let m2 := "⬆️ جاري الرفع إلى يوتيوب...\nTitle: " ++ meta.title
        let succeed : String → PublishOut := fun urlText =>
          let files2 := files.filter (fun f => !(f.id == file.id))
          { messages :=
              [m1, m2,
               "✅ تم النشر!\nعدد الفيديوات المتبقية: " ++ toString files2.length ++
                 "\nرابط الفيديو: " ++ urlText]
            deleteCalls := [file.id], finalFiles := files2, cfg := cfg }
        match upload_to_youtube up with
        | some r =>
          if strStartsWith r "ERR:" then
            let reason : String := ⟨(afterFirstColon r.data).getD []⟩
            let msg :=
              if reason == "uploadLimitExceeded" then
                "❌ فشل رفع الفيديو." ++ "\nالسبب: تجاوز حد الرفع المؤقت في يوتيوب."
              else
                "❌ فشل رفع الفيديو." ++ "\nالسبب: " ++ reason ++ "."
            { messages := [m1, m2, msg], deleteCalls := [], finalFiles := files, cfg := cfg }
          else succeed r
        | none => succeed "None"

/-! ### Scheduler (main.py:396-422) -/

/-- A job on the application job queue.  `data` is the chat id bound in
the `data={"chat_id": chat_id}` payload (`none` for a job without such a
payload, which `clear_chat_jobs` skips); `name` and `timeOfDay` record
the registration arguments of `run_daily`. -/
structure Job where
  data : Option Nat
  name : String
  timeOfDay : Nat × Nat
  deriving DecidableEq

/-- main.py:401-407, `clear_chat_jobs`: remove every job whose payload
binds this chat id. -/
def clear_chat_jobs (jobs : List Job) (chat : Nat) : List Job :=
  jobs.filter (fun j => !(j.data == some chat))

/-- main.py:410-422, `schedule_daily_jobs`: clear this chat's jobs, then
register one daily job per time string; a string whose parse or
`datetime.time` construction raises is logged and skipped. -/
def schedule_daily_jobs (jobs : List Job) (chat : Nat) (times : List String) : List Job :=
  clear_chat_jobs jobs chat ++
    times.filterMap (fun t =>
      (parse_time_text t).map (fun hm =>
        { data := some chat
          name := "autopost_" ++ toString chat ++ "_" ++ t
          timeOfDay := hm }))

/-! ### Chat events and handlers (main.py:426-623)

The registered handlers are `/start` (CommandHandler), any callback
button press, any document upload, and any non-command text message.
Replies are modelled by a tag per distinct outgoing message of the
handlers; message details that only quote collaborator results (video
counts, error texts) are not carried by the tags.  The publish pipeline
is invoked with collaborators not threaded through the state machine, so
its replies are modelled separately by `publish_now` and appear here as
the single tag `publishRun`. -/

/-- An inbound update dispatched to the handlers.  `document` carries the
parsed credential JSON, or `none` when the upload is not a `.json` file
or fails to parse (both leave the state unchanged, main.py:465-466 and
483-485). -/
inductive Event where
  | text (s : String)
  | document (doc : Option OAuthJson)
  | button (data : String)
  | startCmd
  | timerFire
  deriving DecidableEq

/-- Outgoing reply tags, one per distinct message of the handlers. -/
inductive Reply where
  | startStatus
  | notAwaitingJson
  | invalidJson
  | askRefreshToken
  | askFolderId
  | setupSaved
  | publishRun
  | askTimesCount
  | countOutOfRange
  | countFormatError
  | askNextTime (i : Nat)
  | autopostEnabled
  | invalidTime
  | helpText
  | setupDone
  | autopostStopped
  | settingsShown
  | unknownOption
  deriving DecidableEq

/-- main.py:488-564, `handle_text`. -/
def handle_text (chat : Nat) (cfg : ChatConfig) (jobs : List Job) (input : String) :
    ChatConfig × List Job × List Reply :=
  let text := pyStrip input
  if cfg.next = .await_refresh then
    ({ cfg with refresh_token := some text, next := .await_folder }, jobs, [.askFolderId])
  else if cfg.next = .await_folder then
    let cfg1 := { cfg with drive_folder_id := some text, next := .idle, setup_complete := true }
    (build_services_mutate cfg1, jobs, [.setupSaved])
  else if pyLower text ∈ (["انشر الان", "/publish", "publish now"] : List String) then
    (publish_mutate cfg, jobs, [.publishRun])
  else if text ∈ (["ضبط النشر التلقائي", "/autopost"] : List String) then
    ({ cfg with next := .await_times_count }, jobs, [.askTimesCount])
  else if cfg.next = .await_times_count then
    match pyParseInt text with
    | none => (cfg, jobs, [.countFormatError])
    | some n =>
      if n < 1 ∨ 7 < n then (cfg, jobs, [.countOutOfRange])
      else
        ({ cfg with autopost_count := n.toNat, autopost_times := [], next := .await_time 1 },
         jobs, [.askNextTime 1])
  else if cfg.next.isAwaitTime then
    match parse_time_text text with
    | none => (cfg, jobs, [.invalidTime])
    | some hm =>
      let times := cfg.autopost_times ++ [fmtTime hm.1 hm.2]
      if times.length < cfg.autopost_count then
        ({ cfg with autopost_times := times, next := .await_time (times.length + 1) },
         jobs, [.askNextTime (times.length + 1)])
      else
        ({ cfg with autopost_times := times, next := .idle, autopost_enabled := true },
         schedule_daily_jobs jobs chat times, [.autopostEnabled])
  else (cfg, jobs, [.helpText])

/-- main.py:457-485, `handle_document`. -/
def handle_document (cfg : ChatConfig) (doc : Option OAuthJson) :
    ChatConfig × List Reply :=
  if cfg.next ≠ .await_json then (cfg, [.notAwaitingJson])
  else
    match doc with
    | none => (cfg, [.invalidJson])
    | some j =>
      match extract_oauth_fields j with
      | .ok f =>
        ({ cfg with
            oauth_json := some j
            oauth_client_id := some f.client_id
            oauth_client_secret := some f.client_secret
            oauth_token_uri := f.token_uri
            next := .await_refresh }, [.askRefreshToken])
      | .error _ => (cfg, [.invalidJson])

/-- main.py:567-615, `on_button`. -/
def on_button (chat : Nat) (cfg : ChatConfig) (jobs : List Job) (data : String) :
    ChatConfig × List Job × List Reply :=
  if data = "save_yes" ∨ data = "save_no" then
    let cfg1 := { cfg with save_info := data = "save_yes", next := .idle }
    let cfg2 :=
      if cfg1.save_info && truthyStr cfg1.refresh_token && truthyStr cfg1.drive_folder_id then
        { cfg1 with setup_complete := true }
      else cfg1
    (build_services_mutate cfg2, jobs, [.setupDone])
  else if data = "publish_now" then
    (publish_mutate cfg, jobs, [.publishRun])
  else if data = "autopost_setup" then
    ({ cfg with next := .await_times_count }, jobs, [.askTimesCount])
  else if data = "autopost_stop" then
    ({ cfg with autopost_enabled := false, autopost_times := [], autopost_count := 0 },
     clear_chat_jobs jobs chat, [.autopostStopped])
  else if data = "show_settings" then (cfg, jobs, [.settingsShown])
  else (cfg, jobs, [.unknownOption])

/-- main.py:426-454, `start`: purely informational except that reading
the folder count calls `build_services` (main.py:433), caching the oauth
identity. -/
def start_cmd (cfg : ChatConfig) : ChatConfig × List Reply :=
  if cfg.setup_complete && truthyStr cfg.refresh_token && truthyStr cfg.drive_folder_id then
    (build_services_mutate cfg, [.startStatus])
  else (cfg, [.startStatus])

/-! ### The event-driven system -/

/-- Per-chat system state: the chat's configuration plus the application
job queue. -/
structure SysState where
  cfg : ChatConfig
  jobs : List Job
  deriving DecidableEq

/-- A fresh chat: default configuration, no registered jobs. -/
def initState : SysState := ⟨initChat, []⟩

/-- Dispatch of one inbound event to its handler (main.py:619-623 plus
the scheduler callback `scheduled_post`, main.py:396-398, which invokes
the publish pipeline directly). -/
def stepFull (chat : Nat) (s : SysState) (e : Event) : SysState × List Reply :=
  match e with
  | .text t =>
    let r := handle_text chat s.cfg s.jobs t
    (⟨r.1, r.2.1⟩, r.2.2)
  | .document d =>
    let r := handle_document s.cfg d
    (⟨r.1, s.jobs⟩, r.2)
  | .button b =>
    let r := on_button chat s.cfg s.jobs b
    (⟨r.1, r.2.1⟩, r.2.2)
  | .startCmd =>
    let r := start_cmd s.cfg
    (⟨r.1, s.jobs⟩, r.2)
  | .timerFire => (⟨publish_mutate s.cfg, s.jobs⟩, [.publishRun])

/-- The state after one event. -/
def stepState (chat : Nat) (s : SysState) (e : Event) : SysState :=
  (stepFull chat s e).1

/-- The state after a sequence of events. -/
def run (chat : Nat) (s : SysState) : List Event → SysState
  | [] => s
  | e :: es => run chat (stepState chat s e) es

/-! ### Derived predicates and demo inputs used by the claims -/

/-- Whether `extract_oauth_fields` succeeded. -/
def exceptOk : Except String OAuthFields → Bool
  | .ok _ => true
  | .error _ => false

/-- The upload outcomes the helper classifies as failures (every
`"ERR:..."` return of main.py:336-341). -/
def isErrOutcome : UploadResult → Bool
  | .success _ => false
  | .httpError _ _ => true
  | .genericError _ => true

/-- The time format as the claim words it: exactly five characters, two
digits, a colon, two digits, with the hour in 0..23 and the minute in
0..59.  Stated from the claim's wording for comparison with the code's
acceptance test `parse_time_text`. -/
def claimTimeFormat (s : String) : Bool :=
  match s.data with
  | [h1, h2, c, m1, m2] =>
    h1.isDigit && h2.isDigit && c == ':' && m1.isDigit && m2.isDigit &&
      decide ((h1.toNat - 48) * 10 + (h2.toNat - 48) ≤ 23 ∧
              (m1.toNat - 48) * 10 + (m2.toNat - 48) ≤ 59)
  | _ => false

/-- The invariant used for the restricted autopost claim: whenever
autopost is enabled the chat is idle with a fully collected, non-empty
time list, and during time collection the collected list is still
shorter than the requested count. -/
def InvA (c : ChatConfig) : Prop :=
  (c.autopost_enabled = true →
    c.next = .idle ∧ c.autopost_times.length = c.autopost_count ∧ 1 ≤ c.autopost_count) ∧
  (∀ i, c.next = .await_time i → c.autopost_times.length < c.autopost_count)

/-- The interleaving restriction under which the autopost invariant
holds: the configure-autopost action (text or button) is only taken
while idle with autopost disabled, and the stop button only while idle. -/
def Allowed (s : SysState) (e : Event) : Bool :=
  match e with
  | .text t =>
    if pyStrip t ∈ (["ضبط النشر التلقائي", "/autopost"] : List String) then
      (s.cfg.next == Step.idle) && !s.cfg.autopost_enabled
    else true
  | .button b =>
    if b = "autopost_setup" then (s.cfg.next == Step.idle) && !s.cfg.autopost_enabled
    else if b = "autopost_stop" then s.cfg.next == Step.idle
    else true
  | _ => true

/-- All steps of an event sequence satisfy `Allowed`. -/
def okRun (chat : Nat) (s : SysState) : List Event → Bool
  | [] => true
  | e :: es => Allowed s e && okRun chat (stepState chat s e) es

/-- Every stored autopost time is well-formed: a zero-padded in-range
`HH:MM` of five characters. -/
def ValidTimes (c : ChatConfig) : Prop :=
  ∀ t ∈ c.autopost_times, ∃ hh mm, hh ≤ 23 ∧ mm ≤ 59 ∧ t = fmtTime hh mm ∧ t.length = 5

/-- A chat configuration that has completed setup (used as the concrete
scenario of several claims). -/
def demoCfg : ChatConfig :=
  { initChat with
    next := .idle
    refresh_token := some "R_TOKEN"
    drive_folder_id := some "F123"
    oauth_client_id := some "cid.apps.googleusercontent.com"
    oauth_client_secret := some "csecret"
    setup_complete := true }

/-- A chat configuration in the middle of time collection (first of two
times requested). -/
def awaitTimeCfg : ChatConfig :=
  { initChat with next := .await_time 1, autopost_count := 2 }

/-- The restricted event sequence used to exercise the autopost
invariant: reach `idle` via a save button, configure a single daily
autopost time. -/
def demoAutopostEvents : List Event :=
  [.button "save_yes", .button "autopost_setup", .text "1", .text "08:00"]

/-- The unrestricted event sequence refuting the literal autopost
invariant: enter autopost setup from the fresh state, press stop in the
middle of time collection (which clears the count but leaves the step),
then send a time. -/
def breakingEvents : List Event :=
  [.button "autopost_setup", .text "1", .button "autopost_stop", .text "08:00"]

/-- Event sequence storing the non-zero-padded input `"8:5"`. -/
def looseTimeEvents : List Event :=
  [.button "autopost_setup", .text "1", .text "8:5"]

/-- A well-formed credential document with an `installed` block and no
`token_uri`. -/
def demoOAuthDoc : OAuthJson :=
  ⟨some [("client_id", "cid123"), ("client_secret", "sec456")], none⟩

/-! ## Sanity checks of the embedding on concrete inputs -/

example : pyParseInt " +08 " = some 8 := by decide
example : pyParseInt "8a" = none := by decide
example : parse_time_text "8:5" = some (8, 5) := by decide
example : parse_time_text "24:00" = none := by decide
example : parse_time_text "10:20:30" = none := by decide
example : fmtTime 8 5 = "08:05" := by decide
example : format_hashtags ["A b", "c"] ["d"] 10 = "#Ab #c #d" := by decide
example : infer_context_tags "Cute_Cat_wave.mp4" = ["Kitten", "Cats", "PetLovers", "Ocean", "Wave", "Nature"] := by decide

/-! ## Helper lemmas -/

/-- String length distributes over append. -/
theorem strLength_append (a b : String) : (a ++ b).length = a.length + b.length := by
  show (a ++ b).data.length = a.data.length + b.data.length
  rw [String.data_append, List.length_append]

/-- A list is a `listIsPre`-prefix of itself followed by anything. -/
theorem listIsPre_append_self (l m : List Char) : listIsPre l (l ++ m) = true := by
  induction l with
  | nil => rfl
  | cons a as ih => simp [listIsPre, ih]

/-- A list is a `listIsPre`-prefix of itself. -/
theorem listIsPre_self (l : List Char) : listIsPre l l = true := by
  have h := listIsPre_append_self l []
  rwa [List.append_nil] at h

/-- `listContainsSub` finds the pattern at the end of a list. -/
theorem listContainsSub_append_self (l pat : List Char) :
    listContainsSub pat (l ++ pat) = true := by
  induction l with
  | nil =>
    cases pat with
    | nil => rfl
    | cons a as =>
      show (listIsPre (a :: as) (a :: as) || listContainsSub (a :: as) as) = true
      rw [listIsPre_self]
      rfl
  | cons a as ih => simp [listContainsSub, ih]

/-- A string contains any of its terminal segments. -/
theorem strContains_append_self (a b : String) : strContains (a ++ b) b = true := by
  show listContainsSub b.data (a ++ b).data = true
  rw [String.data_append]
  exact listContainsSub_append_self a.data b.data

/-- The `build_services` caching step touches only the three oauth
fields. -/
theorem build_services_mutate_fields (cfg : ChatConfig) :
    (build_services_mutate cfg).next = cfg.next ∧
    (build_services_mutate cfg).refresh_token = cfg.refresh_token ∧
    (build_services_mutate cfg).drive_folder_id = cfg.drive_folder_id ∧
    (build_services_mutate cfg).save_info = cfg.save_info ∧
    (build_services_mutate cfg).setup_complete = cfg.setup_complete ∧
    (build_services_mutate cfg).autopost_enabled = cfg.autopost_enabled ∧
    (build_services_mutate cfg).autopost_count = cfg.autopost_count ∧
    (build_services_mutate cfg).autopost_times = cfg.autopost_times := by
  unfold build_services_mutate
  repeat' split
  all_goals exact ⟨rfl, rfl, rfl, rfl, rfl, rfl, rfl, rfl⟩

/-- The publish pipeline likewise. -/
theorem publish_mutate_fields (cfg : ChatConfig) :
    (publish_mutate cfg).next = cfg.next ∧
    (publish_mutate cfg).refresh_token = cfg.refresh_token ∧
    (publish_mutate cfg).drive_folder_id = cfg.drive_folder_id ∧
    (publish_mutate cfg).save_info = cfg.save_info ∧
    (publish_mutate cfg).setup_complete = cfg.setup_complete ∧
    (publish_mutate cfg).autopost_enabled = cfg.autopost_enabled ∧
    (publish_mutate cfg).autopost_count = cfg.autopost_count ∧
    (publish_mutate cfg).autopost_times = cfg.autopost_times := by
  unfold publish_mutate
  split
  · exact build_services_mutate_fields cfg
  · simp

/-- Accepted time inputs are in range. -/
theorem parse_time_bounds (s : String) (hh mm : Nat)
    (h : parse_time_text s = some (hh, mm)) : hh ≤ 23 ∧ mm ≤ 59 := by
  unfold parse_time_text at h
  split at h
  · split at h
    · split at h
      · rename_i a b h1 h2 hcond
        obtain ⟨rfl, rfl⟩ : _ ∧ _ := by
          have := Option.some.inj h
          exact ⟨congrArg Prod.fst this, congrArg Prod.snd this⟩
        omega
      · exact absurd h (by simp)
    · exact absurd h (by simp)
  · exact absurd h (by simp)

/-- Two-digit zero padding really is two characters for the values the
code feeds it. -/
theorem pad2_length (n : Nat) (h : n < 100) : (pad2 n).length = 2 := by
  revert h
  revert n
  decide

/-- A formatted stored time is five characters. -/
theorem fmtTime_length (hh mm : Nat) (h1 : hh ≤ 23) (h2 : mm ≤ 59) :
    (fmtTime hh mm).length = 5 := by
  unfold fmtTime
  rw [strLength_append, strLength_append, pad2_length hh (by omega), pad2_length mm (by omega)]
  rfl





/-! ## Claims -/

/-- C2 counterexample: in the fresh state, pressing the stop-autopost
button leaves the step at `await_json`; the claim's "advances step to
idle" is false (the handler at main.py:597-604 never writes
`cfg["next"]`). -/
theorem stop_button_no_idle_counterexample :
    (stepState 1 initState (.button "autopost_stop")).cfg.next = Step.await_json ∧
    Step.await_json ≠ Step.idle := by
  decide

/-- C2 (amended): for every chat state, the stop-autopost button press
disables autopost, clears the time list and the count, removes every
registered trigger whose bound chat id matches this chat, and leaves the
step field unchanged (it does not advance it to idle). -/
theorem stop_button_effect (chat : Nat) (s : SysState) :
    (stepState chat s (.button "autopost_stop")).cfg.autopost_enabled = false ∧
    (stepState chat s (.button "autopost_stop")).cfg.autopost_times = [] ∧
    (stepState chat s (.button "autopost_stop")).cfg.autopost_count = 0 ∧
    (stepState chat s (.button "autopost_stop")).cfg.next = s.cfg.next ∧
    (stepState chat s (.button "autopost_stop")).cfg.setup_complete = s.cfg.setup_complete ∧
    (stepState chat s (.button "autopost_stop")).jobs
      = s.jobs.filter (fun j => !(j.data == some chat)) := by
  exact ⟨rfl, rfl, rfl, rfl, rfl, rfl⟩

/-- C5 counterexample: a publish attempt for a chat with autopost
enabled and times 09:00 and 18:00 sends exactly the same replies as for
the identical chat with autopost disabled, and no reply mentions either
configured time, so the reply does not report the next scheduled time
(there is no such computation in main.py:345-392). -/
theorem publish_no_next_time_counterexample :
    (publish_now
        { demoCfg with autopost_enabled := true, autopost_count := 2,
                       autopost_times := ["09:00", "18:00"] }
        [⟨"f1", "video.mp4"⟩] (.success (some "abc123")) .failure).messages
      = (publish_now demoCfg [⟨"f1", "video.mp4"⟩] (.success (some "abc123")) .failure).messages ∧
    ∀ m ∈ (publish_now
        { demoCfg with autopost_enabled := true, autopost_count := 2,
                       autopost_times := ["09:00", "18:00"] }
        [⟨"f1", "video.mp4"⟩] (.success (some "abc123")) .failure).messages,
      strContains m "18:00" = false ∧ strContains m "09:00" = false ∧
        strContains m "(tomorrow)" = false := by
  constructor
  · rfl
  · decide

/-- C5 (amended): the publish pipeline's replies and delete calls are
independent of the autopost configuration — in particular no reply
reports a next scheduled time, whether or not autopost is enabled. -/
theorem publish_ignores_autopost_config (cfg : ChatConfig) (files : List DriveFile)
    (up : UploadResult) (gem : GeminiOutcome) (b : Bool) (n : Nat) (ts : List String) :
    (publish_now { cfg with autopost_enabled := b, autopost_count := n, autopost_times := ts }
        files up gem).messages = (publish_now cfg files up gem).messages ∧
    (publish_now { cfg with autopost_enabled := b, autopost_count := n, autopost_times := ts }
        files up gem).deleteCalls = (publish_now cfg files up gem).deleteCalls := by
  obtain ⟨nx, oj, rt, dfi, oci, ocs, otu, si, sc, ae, ac, at0⟩ := cfg
  have hc :
      credsOk (build_services_mutate ⟨nx, oj, rt, dfi, oci, ocs, otu, si, sc, b, n, ts⟩)
        = credsOk (build_services_mutate ⟨nx, oj, rt, dfi, oci, ocs, otu, si, sc, ae, ac, at0⟩) := by
    unfold build_services_mutate credsOk
    dsimp only
    split
    · rfl
    · cases oj with
      | none => rfl
      | some j =>
        repeat' split
        all_goals rfl
  constructor <;>
  · simp only [publish_now]
    try dsimp only
    rw [hc]
    repeat' split
    all_goals rfl

/-- C6: the metadata synthesizer is total — on the exception outcome it
returns the fixed fallback title and fallback description, and on every
outcome the returned description ends with the appended hashtag line. -/
theorem gemini_metadata_never_fails (video_path filename_hint : String) (gem : GeminiOutcome) :
    generate_metadata_with_gemini video_path filename_hint .failure =
      { title := default_title
        description := "Fallback description.\n" ++
          format_hashtags TRENDING_TAGS (infer_context_tags filename_hint) 10 } ∧
    ∃ d, (generate_metadata_with_gemini video_path filename_hint gem).description =
      d ++ "\n" ++ format_hashtags TRENDING_TAGS (infer_context_tags filename_hint) 10 := by
  constructor
  · rfl
  · cases gem with
    | failure =>
      refine ⟨"Fallback description.", ?_⟩
      show "Fallback description.\n" ++ _ = "Fallback description." ++ "\n" ++ _
      rw [show ("Fallback description." ++ "\n" : String) = "Fallback description.\n" from by decide]
    | response txt => exact ⟨_, rfl⟩

/-- C3: when the pipeline reaches the upload step and the upload helper
returns an error classification, no delete call is issued, the folder is
untouched, and the final reply carries the classified reason — the
rate-limit-specific wording exactly when the reason is
`uploadLimitExceeded`. -/
theorem publish_failure_no_delete (cfg : ChatConfig) (f : DriveFile) (rest : List DriveFile)
    (up : UploadResult) (gem : GeminiOutcome)
    (hfolder : truthyStr cfg.drive_folder_id = true)
    (hcreds : credsOk (build_services_mutate cfg) = true)
    (herr : isErrOutcome up = true) :
    (publish_now cfg (f :: rest) up gem).deleteCalls = [] ∧
    (publish_now cfg (f :: rest) up gem).finalFiles = f :: rest ∧
    ∃ reason : String,
      upload_to_youtube up = some ("ERR:" ++ reason) ∧
      (publish_now cfg (f :: rest) up gem).messages =
        ["🔍 جاري التحليل وتوليد البيانات للفيديو: " ++ f.name,
         "⬆️ جاري الرفع إلى يوتيوب...\nTitle: " ++
           (generate_metadata_with_gemini "video" f.name gem).title,
         if reason == "uploadLimitExceeded" then
           "❌ فشل رفع الفيديو." ++ "\nالسبب: تجاوز حد الرفع المؤقت في يوتيوب."
         else "❌ فشل رفع الفيديو." ++ "\nالسبب: " ++ reason ++ "."] := by
  simp only [publish_now, hfolder, hcreds, Bool.not_true]
  cases up with
  | success v => exact absurd herr (by simp [isErrOutcome])
  | httpError lim code =>
    cases lim with
    | true => exact ⟨rfl, rfl, "uploadLimitExceeded", rfl, rfl⟩
    | false =>
      cases code with
      | none => exact ⟨rfl, rfl, "HttpError ", rfl, rfl⟩
      | some c => exact ⟨rfl, rfl, "HttpError " ++ toString c, rfl, rfl⟩
  | genericError m => exact ⟨rfl, rfl, "Generic " ++ m, rfl, rfl⟩

/-- C3 witness: the rate-limit scenario at concrete inputs. -/
theorem publish_failure_no_delete_witness :
    (publish_now demoCfg [⟨"f1", "video.mp4"⟩] (.httpError true none) .failure).deleteCalls = [] ∧
    (publish_now demoCfg [⟨"f1", "video.mp4"⟩] (.httpError true none) .failure).finalFiles
      = [⟨"f1", "video.mp4"⟩] ∧
    ∃ reason : String,
      upload_to_youtube (.httpError true none) = some ("ERR:" ++ reason) ∧
      (publish_now demoCfg [⟨"f1", "video.mp4"⟩] (.httpError true none) .failure).messages =
        ["🔍 جاري التحليل وتوليد البيانات للفيديو: " ++ (⟨"f1", "video.mp4"⟩ : DriveFile).name,
         "⬆️ جاري الرفع إلى يوتيوب...\nTitle: " ++
           (generate_metadata_with_gemini "video" (⟨"f1", "video.mp4"⟩ : DriveFile).name .failure).title,
         if reason == "uploadLimitExceeded" then
           "❌ فشل رفع الفيديو." ++ "\nالسبب: تجاوز حد الرفع المؤقت في يوتيوب."
         else "❌ فشل رفع الفيديو." ++ "\nالسبب: " ++ reason ++ "."] :=
  publish_failure_no_delete demoCfg ⟨"f1", "video.mp4"⟩ [] (.httpError true none) .failure
    (by decide) (by decide) (by decide)

/-- C4: when the upload succeeds with a video id, the pipeline issues
exactly one delete call for the selected file, re-lists the folder, and
its final reply carries the post-deletion remaining count and a URL
containing the video id. -/
theorem publish_success_deletes_once (cfg : ChatConfig) (f : DriveFile) (rest : List DriveFile)
    (v : String) (gem : GeminiOutcome)
    (hfolder : truthyStr cfg.drive_folder_id = true)
    (hcreds : credsOk (build_services_mutate cfg) = true) :
    (publish_now cfg (f :: rest) (.success (some v)) gem).deleteCalls = [f.id] ∧
    (publish_now cfg (f :: rest) (.success (some v)) gem).finalFiles
      = (f :: rest).filter (fun x => !(x.id == f.id)) ∧
    (publish_now cfg (f :: rest) (.success (some v)) gem).messages =
      ["🔍 جاري التحليل وتوليد البيانات للفيديو: " ++ f.name,
       "⬆️ جاري الرفع إلى يوتيوب...\nTitle: " ++
         (generate_metadata_with_gemini "video" f.name gem).title,
       "✅ تم النشر!\nعدد الفيديوات المتبقية: " ++
         toString ((f :: rest).filter (fun x => !(x.id == f.id))).length ++
         "\nرابط الفيديو: " ++ ("https://www.youtube.com/watch?v=" ++ v)] ∧
    ∃ u, (publish_now cfg (f :: rest) (.success (some v)) gem).messages.getLast? = some u ∧
      strContains u v = true := by
  refine ⟨?_, ?_, ?_, ?_⟩
  · simp only [publish_now, hfolder, hcreds, Bool.not_true]
    rfl
  · simp only [publish_now, hfolder, hcreds, Bool.not_true]
    rfl
  · simp only [publish_now, hfolder, hcreds, Bool.not_true]
    rfl
  · refine ⟨"✅ تم النشر!\nعدد الفيديوات المتبقية: " ++
        toString ((f :: rest).filter (fun x => !(x.id == f.id))).length ++
        "\nرابط الفيديو: " ++ ("https://www.youtube.com/watch?v=" ++ v), ?_, ?_⟩
    · simp only [publish_now, hfolder, hcreds, Bool.not_true]
      rfl
    · show listContainsSub v.data _ = true
      simp only [String.data_append, ← List.append_assoc]
      exact listContainsSub_append_self _ v.data

/-- C4 witness: the successful scenario with video id abc123 at concrete
inputs. -/
theorem publish_success_deletes_once_witness :
    (publish_now demoCfg [⟨"f1", "video.mp4"⟩] (.success (some "abc123")) .failure).deleteCalls
      = ["f1"] ∧
    (publish_now demoCfg [⟨"f1", "video.mp4"⟩] (.success (some "abc123")) .failure).finalFiles
      = [] ∧
    ∃ u, (publish_now demoCfg [⟨"f1", "video.mp4"⟩]
            (.success (some "abc123")) .failure).messages.getLast? = some u ∧
      strContains u "abc123" = true := by
  have h := publish_success_deletes_once demoCfg ⟨"f1", "video.mp4"⟩ [] "abc123" .failure
    (by decide) (by decide)
  exact ⟨by rw [h.1], by rw [h.2.1]; decide, h.2.2.2⟩

/-- C7: credential-field extraction succeeds exactly when the selected
installed-or-web block carries both `client_id` and `client_secret`; on
success it returns exactly those two values plus `token_uri` defaulted to
the known constant when absent; when the selected block lacks one of the
two required fields the raised error names the missing field; and with no
(truthy) block at all the no-block error is raised. -/
theorem extract_oauth_fields_spec (j : OAuthJson) :
    ((exceptOk (extract_oauth_fields j) = true) ↔
      ∃ b, pickBlock j = some b ∧
        (dictLookup "client_id" b).isSome = true ∧
        (dictLookup "client_secret" b).isSome = true) ∧
    (∀ b cid cs, pickBlock j = some b →
      dictLookup "client_id" b = some cid → dictLookup "client_secret" b = some cs →
      extract_oauth_fields j =
        Except.ok ⟨cid, cs, (dictLookup "token_uri" b).getD OAUTH_TOKEN_URI_DEFAULT⟩) ∧
    (∀ b, pickBlock j = some b → dictLookup "client_id" b = none →
      extract_oauth_fields j = Except.error ("ملف JSON ناقص الحقل: " ++ "client_id")) ∧
    (∀ b cid, pickBlock j = some b → dictLookup "client_id" b = some cid →
      dictLookup "client_secret" b = none →
      extract_oauth_fields j = Except.error ("ملف JSON ناقص الحقل: " ++ "client_secret")) ∧
    (pickBlock j = none →
      extract_oauth_fields j = Except.error "ملف JSON لا يحتوي على 'installed' أو 'web'.") := by
  unfold extract_oauth_fields
  cases hb : pickBlock j with
  | none => simp [exceptOk]
  | some b =>
    cases hc : dictLookup "client_id" b with
    | none =>
      simp [exceptOk, hc]
      constructor <;> (intros; simp_all)
    | some cid =>
      cases hs : dictLookup "client_secret" b with
      | none =>
        simp [exceptOk, hc, hs]
        intros
        simp_all
      | some cs =>
        simp [exceptOk, hc, hs]
        constructor <;> (intros; simp_all)

/-- C7 witness: a concrete document with an installed block holding both
fields and no `token_uri` extracts the two values with the defaulted
token endpoint. -/
theorem extract_oauth_fields_spec_witness :
    extract_oauth_fields demoOAuthDoc =
      Except.ok ⟨"cid123", "sec456", OAUTH_TOKEN_URI_DEFAULT⟩ :=
  (extract_oauth_fields_spec demoOAuthDoc).2.1
    [("client_id", "cid123"), ("client_secret", "sec456")] "cid123" "sec456"
    (by decide) (by decide) (by decide)

/-- C9: on ten trending and two contextual pairwise-distinct tags, the
mixer returns exactly the first five trending tags, the two contextual
tags, then three backfilled trending tags, rendered as space-joined
hash-prefixed tags with internal spaces removed, and the emitted tag
list has no duplicates. -/
theorem format_hashtags_mix
    (t1 t2 t3 t4 t5 t6 t7 t8 t9 t10 c1 c2 : String)
    (h : List.Pairwise (fun a b => a ≠ b) [t1, t2, t3, t4, t5, t6, t7, t8, t9, t10, c1, c2]) :
    mixedTags [t1, t2, t3, t4, t5, t6, t7, t8, t9, t10] [c1, c2] 10
      = [t1, t2, t3, t4, t5, c1, c2, t6, t7, t8] ∧
    format_hashtags [t1, t2, t3, t4, t5, t6, t7, t8, t9, t10] [c1, c2] 10
      = joinSpace (List.map renderTag [t1, t2, t3, t4, t5, c1, c2, t6, t7, t8]) ∧
    List.Nodup [t1, t2, t3, t4, t5, c1, c2, t6, t7, t8] := by
  simp at h
  obtain ⟨⟨a12, a13, a14, a15, a16, a17, a18, a19, a1x, a1c1, a1c2⟩,
          ⟨a23, a24, a25, a26, a27, a28, a29, a2x, a2c1, a2c2⟩,
          ⟨a34, a35, a36, a37, a38, a39, a3x, a3c1, a3c2⟩,
          ⟨a45, a46, a47, a48, a49, a4x, a4c1, a4c2⟩,
          ⟨a56, a57, a58, a59, a5x, a5c1, a5c2⟩,
          ⟨a67, a68, a69, a6x, a6c1, a6c2⟩,
          ⟨a78, a79, a7x, a7c1, a7c2⟩,
          ⟨a89, a8x, a8c1, a8c2⟩,
          ⟨a9x, a9c1, a9c2⟩,
          ⟨axc1, axc2⟩,
          ac1c2⟩ := h
  have e1 : mixedTags [t1, t2, t3, t4, t5, t6, t7, t8, t9, t10] [c1, c2] 10
      = [t1, t2, t3, t4, t5, c1, c2, t6, t7, t8] := by
    simp [mixedTags, backfill,
      Ne.symm a16, Ne.symm a26, Ne.symm a36, Ne.symm a46, Ne.symm a56, a6c1, a6c2,
      Ne.symm a17, Ne.symm a27, Ne.symm a37, Ne.symm a47, Ne.symm a57, a7c1, a7c2,
      Ne.symm a67,
      Ne.symm a18, Ne.symm a28, Ne.symm a38, Ne.symm a48, Ne.symm a58, a8c1, a8c2,
      Ne.symm a68, Ne.symm a78]
  refine ⟨e1, ?_, ?_⟩
  · unfold format_hashtags
    rw [e1]
  · simp [List.nodup_cons,
      a12, a13, a14, a15, a1c1, a1c2, a16, a17, a18,
      a23, a24, a25, a2c1, a2c2, a26, a27, a28,
      a34, a35, a3c1, a3c2, a36, a37, a38,
      a45, a4c1, a4c2, a46, a47, a48,
      a5c1, a5c2, a56, a57, a58,
      ac1c2, Ne.symm a6c1, Ne.symm a7c1, Ne.symm a8c1,
      Ne.symm a6c2, Ne.symm a7c2, Ne.symm a8c2,
      a67, a68, a78]

/-- C9 witness: the mixer at twelve concrete distinct tags. -/
theorem format_hashtags_mix_witness :
    mixedTags ["T1", "T2", "T3", "T4", "T5", "T6", "T7", "T8", "T9", "T10"] ["C1", "C2"] 10
      = ["T1", "T2", "T3", "T4", "T5", "C1", "C2", "T6", "T7", "T8"] ∧
    format_hashtags ["T1", "T2", "T3", "T4", "T5", "T6", "T7", "T8", "T9", "T10"] ["C1", "C2"] 10
      = joinSpace (List.map renderTag
          ["T1", "T2", "T3", "T4", "T5", "C1", "C2", "T6", "T7", "T8"]) ∧
    List.Nodup ["T1", "T2", "T3", "T4", "T5", "C1", "C2", "T6", "T7", "T8"] :=
  format_hashtags_mix "T1" "T2" "T3" "T4" "T5" "T6" "T7" "T8" "T9" "T10" "C1" "C2" (by decide)

/-- C8 counterexample: at a time-collection step the input 8:5 does not
match the claimed five-character HH:MM format, yet it is accepted and
appended (zero-padded), so it is not rejected with the state left
unchanged. -/
theorem time_collection_counterexample :
    claimTimeFormat "8:5" = false ∧
    (handle_text 1 awaitTimeCfg [] "8:5").1.autopost_times = ["08:05"] ∧
    awaitTimeCfg.autopost_times = [] := by
  decide

/-- C8 (amended): at a time-collection step, a message that is not one
of the publish/configure-autopost command strings is accepted exactly
when its colon-split yields two integer components with hour in 0..23
and minute in 0..59 (leading zeros optional); acceptance appends the
zero-padded rendering to `autopost_times`, and any other such message is
rejected with the format-error reply, leaving the whole state
unchanged. -/
theorem await_time_step_spec (chat : Nat) (cfg : ChatConfig) (jobs : List Job)
    (i : Nat) (input : String)
    (hstep : cfg.next = .await_time i)
    (hnp : pyLower (pyStrip input) ∉ (["انشر الان", "/publish", "publish now"] : List String))
    (hna : pyStrip input ∉ (["ضبط النشر التلقائي", "/autopost"] : List String)) :
    (parse_time_text (pyStrip input) = none →
      handle_text chat cfg jobs input = (cfg, jobs, [Reply.invalidTime])) ∧
    (∀ hh mm, parse_time_text (pyStrip input) = some (hh, mm) →
      (handle_text chat cfg jobs input).1.autopost_times
        = cfg.autopost_times ++ [fmtTime hh mm]) := by
  unfold handle_text
  rw [hstep]
  simp only [reduceCtorEq, if_false, if_neg hnp, if_neg hna]
  constructor
  · intro hparse
    simp [hparse, Step.isAwaitTime]
  · intro hh mm hparse
    simp only [Step.isAwaitTime, if_true, hparse]
    split <;> rfl

/-- C8 witness: rejection of 99:99 and acceptance of 8:5 at a concrete
time-collection state. -/
theorem await_time_step_spec_witness :
    handle_text 1 awaitTimeCfg [] "99:99" = (awaitTimeCfg, [], [Reply.invalidTime]) ∧
    (handle_text 1 awaitTimeCfg [] "8:5").1.autopost_times
      = awaitTimeCfg.autopost_times ++ [fmtTime 8 5] :=
  ⟨(await_time_step_spec 1 awaitTimeCfg [] 1 "99:99" rfl (by decide) (by decide)).1 (by decide),
   (await_time_step_spec 1 awaitTimeCfg [] 1 "8:5" rfl (by decide) (by decide)).2 8 5 (by decide)⟩

/-- A step is a time-collection step exactly when it is some
`await_time i`. -/
theorem isAwaitTime_iff (st : Step) : st.isAwaitTime = true ↔ ∃ j, st = Step.await_time j := by
  cases st <;> simp [Step.isAwaitTime]

/-- Under the invariant, autopost can only be enabled at the idle step. -/
theorem enabled_false_of_not_idle (cfg : ChatConfig) (hI : InvA cfg)
    (h : cfg.next ≠ Step.idle) : cfg.autopost_enabled = false := by
  cases hb : cfg.autopost_enabled with
  | false => rfl
  | true => exact absurd (hI.1 hb).1 h

/-- The oauth caching step preserves the autopost invariant. -/
theorem InvA_bsm (cfg : ChatConfig) (h : InvA cfg) : InvA (build_services_mutate cfg) := by
  obtain ⟨f1, _, _, _, _, f6, f7, f8⟩ := build_services_mutate_fields cfg
  unfold InvA at h ⊢
  rw [f1, f6, f7, f8]
  exact h

/-- The publish pipeline preserves the autopost invariant. -/
theorem InvA_pm (cfg : ChatConfig) (h : InvA cfg) : InvA (publish_mutate cfg) := by
  obtain ⟨f1, _, _, _, _, f6, f7, f8⟩ := publish_mutate_fields cfg
  unfold InvA at h ⊢
  rw [f1, f6, f7, f8]
  exact h

/-- One allowed event preserves the autopost invariant. -/
theorem InvA_step (chat : Nat) (s : SysState) (e : Event)
    (hA : Allowed s e = true) (hI : InvA s.cfg) : InvA (stepState chat s e).cfg := by
  cases e with
  | text t =>
    simp only [stepState, stepFull, handle_text]
    split
    · rename_i h1
      have hf := enabled_false_of_not_idle s.cfg hI (fun hx => nomatch (h1.symm.trans hx))
      exact ⟨(fun he => nomatch (hf.symm.trans he)), (fun i hi => nomatch hi)⟩
    · split
      · rename_i h2
        apply InvA_bsm
        have hf := enabled_false_of_not_idle s.cfg hI (fun hx => nomatch (h2.symm.trans hx))
        exact ⟨(fun he => nomatch (hf.symm.trans he)), (fun i hi => nomatch hi)⟩
      · split
        · exact InvA_pm s.cfg hI
        · split
          · rename_i h4
            have hA' := hA
            simp [Allowed, h4] at hA'
            exact ⟨(fun he => nomatch (hA'.2.symm.trans he)), (fun i hi => nomatch hi)⟩
          · split
            · rename_i h5
              split
              · exact hI
              · rename_i n hn
                split
                · exact hI
                · rename_i hrange
                  have hf := enabled_false_of_not_idle s.cfg hI
                    (fun hx => nomatch (h5.symm.trans hx))
                  refine ⟨(fun he => nomatch (hf.symm.trans he)), (fun i hi => ?_)⟩
                  show (0 : Nat) < n.toNat
                  omega
            · split
              · rename_i hat
                obtain ⟨j, hj⟩ := (isAwaitTime_iff s.cfg.next).mp hat
                split
                · exact hI
                · rename_i hm hmeq
                  split
                  · rename_i hlen
                    have hf := enabled_false_of_not_idle s.cfg hI
                      (fun hx => nomatch (hj.symm.trans hx))
                    exact ⟨(fun he => nomatch (hf.symm.trans he)), (fun i hi => hlen)⟩
                  · rename_i hlen
                    have hold := hI.2 j hj
                    refine ⟨(fun _ => ⟨rfl, ?_, ?_⟩), (fun i hi => nomatch hi)⟩
                    · show (s.cfg.autopost_times ++ [fmtTime hm.1 hm.2]).length
                        = s.cfg.autopost_count
                      have hlen' :
                          ¬((s.cfg.autopost_times ++ [fmtTime hm.1 hm.2]).length
                            < s.cfg.autopost_count) := hlen
                      simp only [List.length_append, List.length_cons, List.length_nil] at hlen' ⊢
                      omega
                    · show 1 ≤ s.cfg.autopost_count
                      omega
              · exact hI
  | document d =>
    simp only [stepState, stepFull, handle_document]
    split
    · exact hI
    · rename_i h1
      split
      · exact hI
      · split
        · have h1' := of_not_not h1
          have hf := enabled_false_of_not_idle s.cfg hI (fun hx => nomatch (h1'.symm.trans hx))
          exact ⟨(fun he => nomatch (hf.symm.trans he)), (fun i hi => nomatch hi)⟩
        · exact hI
  | button b =>
    simp only [stepState, stepFull, on_button]
    split
    · apply InvA_bsm
      split
      · exact ⟨(fun he => ⟨rfl, (hI.1 he).2.1, (hI.1 he).2.2⟩), (fun i hi => nomatch hi)⟩
      · exact ⟨(fun he => ⟨rfl, (hI.1 he).2.1, (hI.1 he).2.2⟩), (fun i hi => nomatch hi)⟩
    · split
      · exact InvA_pm s.cfg hI
      · split
        · rename_i h3
          have hA' := hA
          simp [Allowed, h3] at hA'
          exact ⟨(fun he => nomatch (hA'.2.symm.trans he)), (fun i hi => nomatch hi)⟩
        · split
          · rename_i h4
            have hA' := hA
            simp [Allowed, h4] at hA'
            exact ⟨(fun he => nomatch he), (fun i hi => nomatch (hA'.symm.trans hi))⟩
          · split
            · exact hI
            · exact hI
  | startCmd =>
    simp only [stepState, stepFull, start_cmd]
    split
    · exact InvA_bsm s.cfg hI
    · exact hI
  | timerFire => exact InvA_pm s.cfg hI

/-- The invariant holds after any allowed event sequence. -/
theorem InvA_run (chat : Nat) (es : List Event) (s : SysState)
    (hI : InvA s.cfg) (hok : okRun chat s es = true) : InvA (run chat s es).cfg := by
  induction es generalizing s with
  | nil => exact hI
  | cons e es ih =>
    simp only [okRun, Bool.and_eq_true] at hok
    exact ih (stepState chat s e) (InvA_step chat s e hok.1 hI) hok.2

/-- C1 counterexample: from the default state, entering autopost setup,
answering 1, pressing stop mid-collection (which zeroes the count but
leaves the step at time collection) and sending a time yields a
reachable state with autopost enabled, `setup_complete` false, a zero
count, and one stored time — falsifying every conjunct of the claimed
invariant. -/
theorem autopost_invariant_counterexample :
    (run 1 initState breakingEvents).cfg.autopost_enabled = true ∧
    (run 1 initState breakingEvents).cfg.setup_complete = false ∧
    (run 1 initState breakingEvents).cfg.autopost_count = 0 ∧
    (run 1 initState breakingEvents).cfg.autopost_times.length = 1 := by
  decide

/-- C1 (amended): for states reachable from the default state by event
sequences in which the configure-autopost action is only taken while
idle with autopost disabled and the stop button only while idle,
`autopost_enabled = true` implies
`len(autopost_times) == autopost_count >= 1`.  (The `setup_complete`
conjunct of the claim fails even under this restriction, and without it
the remaining conjuncts fail too — see the counterexample.) -/
theorem autopost_enabled_invariant_restricted (chat : Nat) (es : List Event)
    (hok : okRun chat initState es = true)
    (hen : (run chat initState es).cfg.autopost_enabled = true) :
    (run chat initState es).cfg.autopost_times.length
      = (run chat initState es).cfg.autopost_count ∧
    1 ≤ (run chat initState es).cfg.autopost_count := by
  have h := InvA_run chat es initState
    ⟨(fun he => nomatch he), (fun i hi => nomatch hi)⟩ hok
  exact ⟨(h.1 hen).2.1, (h.1 hen).2.2⟩

/-- C1 witness: a restricted sequence reaching an autopost-enabled
state, where the amended invariant holds. -/
theorem autopost_enabled_invariant_restricted_witness :
    okRun 1 initState demoAutopostEvents = true ∧
    (run 1 initState demoAutopostEvents).cfg.autopost_enabled = true ∧
    ((run 1 initState demoAutopostEvents).cfg.autopost_times.length
        = (run 1 initState demoAutopostEvents).cfg.autopost_count ∧
      1 ≤ (run 1 initState demoAutopostEvents).cfg.autopost_count) :=
  ⟨by decide, by decide,
    autopost_enabled_invariant_restricted 1 demoAutopostEvents (by decide) (by decide)⟩

/-- The oauth caching step preserves time-list well-formedness. -/
theorem ValidTimes_bsm (cfg : ChatConfig) (h : ValidTimes cfg) :
    ValidTimes (build_services_mutate cfg) := by
  unfold ValidTimes at h ⊢
  rw [(build_services_mutate_fields cfg).2.2.2.2.2.2.2]
  exact h

/-- The publish pipeline preserves time-list well-formedness. -/
theorem ValidTimes_pm (cfg : ChatConfig) (h : ValidTimes cfg) :
    ValidTimes (publish_mutate cfg) := by
  unfold ValidTimes at h ⊢
  rw [(publish_mutate_fields cfg).2.2.2.2.2.2.2]
  exact h

/-- Every event preserves time-list well-formedness. -/
theorem ValidTimes_step (chat : Nat) (s : SysState) (e : Event)
    (hV : ValidTimes s.cfg) : ValidTimes (stepState chat s e).cfg := by
  cases e with
  | text t =>
    simp only [stepState, stepFull, handle_text]
    split
    · exact hV
    · split
      · exact ValidTimes_bsm _ hV
      · split
        · exact ValidTimes_pm _ hV
        · split
          · exact hV
          · split
            · split
              · exact hV
              · split
                · exact hV
                · exact (fun t2 ht2 => nomatch ht2)
            · split
              · split
                · exact hV
                · rename_i hm hmeq
                  have hb := parse_time_bounds _ hm.1 hm.2 hmeq
                  split <;>
                  · intro t2 ht2
                    rcases List.mem_append.mp ht2 with hmem | hmem
                    · exact hV t2 hmem
                    · have ht : t2 = fmtTime hm.1 hm.2 := by simpa using hmem
                      exact ⟨hm.1, hm.2, hb.1, hb.2, ht,
                        ht ▸ fmtTime_length hm.1 hm.2 hb.1 hb.2⟩
              · exact hV
  | document d =>
    simp only [stepState, stepFull, handle_document]
    split
    · exact hV
    · split
      · exact hV
      · split
        · exact hV
        · exact hV
  | button b =>
    simp only [stepState, stepFull, on_button]
    split
    · apply ValidTimes_bsm
      split
      · exact hV
      · exact hV
    · split
      · exact ValidTimes_pm _ hV
      · split
        · exact hV
        · split
          · exact (fun t2 ht2 => nomatch ht2)
          · split
            · exact hV
            · exact hV
  | startCmd =>
    simp only [stepState, stepFull, start_cmd]
    split
    · exact ValidTimes_bsm _ hV
    · exact hV
  | timerFire => exact ValidTimes_pm _ hV

/-- Well-formedness of the stored times holds after any event
sequence. -/
theorem ValidTimes_run (chat : Nat) (es : List Event) (s : SysState)
    (hV : ValidTimes s.cfg) : ValidTimes (run chat s es).cfg := by
  induction es generalizing s with
  | nil => exact hV
  | cons e es ih => exact ih (stepState chat s e) (ValidTimes_step chat s e hV)

/-- C10: every element ever stored in `autopost_times` over any event
sequence from the default state is a five-character zero-padded in-range
`HH:MM`; in particular the non-zero-padded input 8:5 is accepted and
stored as 08:05. -/
theorem stored_times_zero_padded (chat : Nat) (es : List Event) :
    (∀ t ∈ (run chat initState es).cfg.autopost_times,
      ∃ hh mm, hh ≤ 23 ∧ mm ≤ 59 ∧ t = fmtTime hh mm ∧ t.length = 5) ∧
    (run 1 initState looseTimeEvents).cfg.autopost_times = ["08:05"] := by
  constructor
  · exact ValidTimes_run chat es initState (fun t2 ht2 => nomatch ht2)
  · decide

/-- C10 witness: the invariant applied to the stored time produced by
the 8:5 input. -/
theorem stored_times_zero_padded_witness :
    ∃ hh mm, hh ≤ 23 ∧ mm ≤ 59 ∧ ("08:05" : String) = fmtTime hh mm ∧
      ("08:05" : String).length = 5 :=
  (stored_times_zero_padded 1 looseTimeEvents).1 "08:05" (by decide)
